import Mathlib

/-!
Verification of the CTX batch engine of the moov-io ACH library, as vendored in
this repository (src/vendor/github.com/moov-io/ach/batchCTX.go), against its
natural-language specification.

The shallow embedding translates the Go source: `BatchCTX.Validate` and
`BatchCTX.Create` follow batchCTX.go statement by statement.  Parts of the
shared `Batch` engine that batchCTX.go calls but whose source is not in this
repository snapshot (`verify`, `build`, `CATXAddendaRecordsField`,
`ValidTranCodeForServiceClassCode`, `addendaFieldInclusion`, the transaction
code constants) are modelled from the specification; each such definition says
so in its doc comment.  Go methods that could in principle mutate their
receiver are embedded in state-passing style (`Batch → Batch × Option ACHError`).
-/

namespace ACH

/-! ## Transaction code and service class constants

Modelled from the spec: the constants file of the library is not part of the
repository snapshot; the names are those used by batchCTX.go and the numeric
values are the standard NACHA transaction codes (credit/prenote/debit variants
across checking/savings/GL/loan account types). -/

def CheckingCredit : Nat := 22
def CheckingPrenoteCredit : Nat := 23
def CheckingDebit : Nat := 27
def CheckingPrenoteDebit : Nat := 28
def SavingsCredit : Nat := 32
def SavingsPrenoteCredit : Nat := 33
def SavingsDebit : Nat := 37
def SavingsReturnNOCDebit : Nat := 38
def GLCredit : Nat := 42
def GLPrenoteCredit : Nat := 43
def GLDebit : Nat := 47
def GLPrenoteDebit : Nat := 48
def LoanCredit : Nat := 52
def LoanPrenoteCredit : Nat := 53
def LoanDebit : Nat := 55

/-- The CTX Standard Entry Class code constant. -/
def CTX : String := "CTX"

/-- Modelled from the spec: service class codes (full-service / credits-only /
debits-only), standard NACHA values. -/
def MixedDebitsAndCredits : Nat := 200
def CreditsOnly : Nat := 220
def DebitsOnly : Nat := 225

/-- Modelled from the spec: entry categories used to select field-inclusion
rules. -/
def CategoryForward : String := "Forward"
def CategoryNOC : String := "NOC"
def CategoryReturn : String := "Return"

/-- Modelled from the spec: the set of debit transaction codes, used by Build
for `totalDebit = Σ amount(e) where transactionCode ∈ DebitCodes` and by the
service-class-code check. -/
def isDebitCode (code : Nat) : Bool :=
  code == CheckingDebit || code == CheckingPrenoteDebit || code == SavingsDebit ||
  code == SavingsReturnNOCDebit || code == GLDebit || code == GLPrenoteDebit ||
  code == LoanDebit

/-- Modelled from the spec: the set of credit transaction codes (analogous to
`isDebitCode`). -/
def isCreditCode (code : Nat) : Bool :=
  code == CheckingCredit || code == CheckingPrenoteCredit || code == SavingsCredit ||
  code == SavingsPrenoteCredit || code == GLCredit || code == GLPrenoteCredit ||
  code == LoanCredit || code == LoanPrenoteCredit

/-! ## Record model -/

/-- One Addenda05 record (supplemental remittance data). Only its presence
matters to the CTX validation rules. -/
structure Addenda05Record where
  PaymentRelatedInformation : String := ""
deriving DecidableEq

/-- EntryDetail — one payment instruction.  `CATXAddendaRecords` is the
fixed-width recorded addenda-count sub-field (modelled from the spec: in the
library it is a slice of the IndividualName field, whose accessor
`CATXAddendaRecordsField` is not in this snapshot; here it is stored directly
on the entry).  `Category`, `Addenda02Present`, `Addenda98Present` and
`Addenda99Present` feed the field-inclusion rules. -/
structure EntryDetail where
  TransactionCode : Nat
  RDFIIdentification : Nat
  Amount : Nat := 0
  CATXAddendaRecords : String := "0000"
  Addenda05 : List Addenda05Record := []
  Category : String := CategoryForward
  Addenda02Present : Bool := false
  Addenda98Present : Bool := false
  Addenda99Present : Bool := false
  TraceNumber : Nat := 0
deriving DecidableEq

/-- Accessor for the recorded addenda-count sub-field.  Modelled from the
spec: the library accessor (outside this snapshot) returns the fixed-width
numeric sub-field recorded on the entry. -/
def EntryDetail.CATXAddendaRecordsField (entry : EntryDetail) : String :=
  entry.CATXAddendaRecords

/-- BatchHeader — identifies the batch; immutable once the batch is created. -/
structure BatchHeader where
  ServiceClassCode : Nat := MixedDebitsAndCredits
  StandardEntryClassCode : String := CTX
  CompanyName : String := ""
  ODFIIdentification : Nat := 0
deriving DecidableEq

/-- BatchControl — derived aggregate, wholly computed by Build. -/
structure BatchControl where
  EntryAddendaCount : Nat := 0
  EntryHash : Nat := 0
  TotalDebitEntryDollarAmount : Nat := 0
  TotalCreditEntryDollarAmount : Nat := 0
deriving DecidableEq

/-- Batch — one Header, one Control, and an ordered sequence of Entries. -/
structure Batch where
  Header : BatchHeader
  Control : BatchControl := {}
  Entries : List EntryDetail := []
deriving DecidableEq

/-- NewBatchCTX returns a batch with the given header and a fresh zero
control, as in batchCTX.go. -/
def NewBatchCTX (bh : BatchHeader) : Batch :=
  { Header := bh, Control := {}, Entries := [] }

/-! ## Errors -/

/-- The typed validation errors produced by the CTX engine, carrying the
diagnostic data batchCTX.go attaches (offending counts, limits, codes). -/
inductive ACHError where
  | secType (got want : String)
  | addendaCount (actual limit : Nat)
  | expectedAddendaCount (actual : Nat) (recorded : Int)
  | transactionCodeAddenda (code : Nat)
  | tranCodeServiceClass (code scc : Nat)
  | fieldInclusion (field : String)
  | structural (msg : String)
deriving DecidableEq

/-! ## Go strconv.Atoi model

batchCTX.go computes `addendaRecords, _ := strconv.Atoi(entry.CATXAddendaRecordsField())`,
discarding the parse error.  `goParseInt` models the successful parses of Go
strconv.Atoi (optional sign followed by at least one decimal digit; the
four-character fixed-width field cannot overflow a Go int, so the
range-error clamping of Atoi is unreachable here); `goAtoi` is the value the
Go code observes after discarding the error: the parsed value on success and
0 on a syntax error. -/

def digitsToNat : List Char → Nat → Option Nat
  | [], acc => some acc
  | c :: cs, acc =>
    if c.isDigit then digitsToNat cs (acc * 10 + (c.toNat - 48)) else none

def goParseInt (s : String) : Option Int :=
  match s.data with
  | [] => none
  | ['+'] => none
  | ['-'] => none
  | '+' :: cs => (digitsToNat cs 0).map (fun n => (n : Int))
  | '-' :: cs => (digitsToNat cs 0).map (fun n => -(n : Int))
  | cs => (digitsToNat cs 0).map (fun n => (n : Int))

def goAtoi (s : String) : Int :=
  (goParseInt s).getD 0

/-! ## Spec-modelled parts of the shared Batch engine -/

/-- Modelled from the spec: `Batch.verify` (called first by Validate and by
build) is not in this repository snapshot.  Per the spec it performs basic
structural verification: Header and Control present, with an empty Entries
list explicitly non-fatal.  In this embedding Header and Control are present
by construction, so no structural check fails. -/
def Batch.verify (_batch : Batch) : Option ACHError :=
  none

/-- Modelled from the spec: `ValidTranCodeForServiceClassCode` is not in this
repository snapshot.  Per the spec, the transaction code must be legal for the
declared Service Class Code (full-service / debits-only / credits-only): a
debit code in a credits-only batch, or a credit code in a debits-only batch,
reports the code and the class. -/
def Batch.ValidTranCodeForServiceClassCode (batch : Batch) (entry : EntryDetail) :
    Option ACHError :=
  if batch.Header.ServiceClassCode == CreditsOnly && isDebitCode entry.TransactionCode then
    some (.tranCodeServiceClass entry.TransactionCode batch.Header.ServiceClassCode)
  else if batch.Header.ServiceClassCode == DebitsOnly && isCreditCode entry.TransactionCode then
    some (.tranCodeServiceClass entry.TransactionCode batch.Header.ServiceClassCode)
  else
    none

/-- Modelled from the spec: `addendaFieldInclusion` is not in this repository
snapshot.  Per the spec, each addenda field must be present or blank exactly
as required by (category, SEC code): for CTX, a Forward entry carries only
Addenda05 (an Addenda02 is unexpectedly present), an NOC entry requires an
Addenda98, and a Return entry requires an Addenda99. -/
def Batch.addendaFieldInclusion (batch : Batch) (entry : EntryDetail) :
    Option ACHError :=
  if batch.Header.StandardEntryClassCode == CTX then
    if entry.Category == CategoryForward && entry.Addenda02Present then
      some (.fieldInclusion "Addenda02")
    else if entry.Category == CategoryNOC && !entry.Addenda98Present then
      some (.fieldInclusion "Addenda98")
    else if entry.Category == CategoryReturn && !entry.Addenda99Present then
      some (.fieldInclusion "Addenda99")
    else
      none
  else
    none

/-! ## The CTX validation, translated from batchCTX.go -/

/-- The transaction codes of the `switch entry.TransactionCode` in
batchCTX.go's Validate: the prenote/zero-dollar-notification codes that a CTX
batch forbids. -/
def tcodeForbidsAddenda (code : Nat) : Bool :=
  code == CheckingPrenoteCredit || code == CheckingPrenoteDebit ||
  code == SavingsPrenoteCredit || code == SavingsReturnNOCDebit ||
  code == GLPrenoteCredit || code == GLPrenoteDebit || code == LoanPrenoteCredit

/-- The body of the `for _, entry := range batch.Entries` loop in
batchCTX.go's Validate, in source order: the Addenda05 capacity check, the
recorded addenda-count check (with the Atoi error discarded), the forbidden
transaction-code switch, the service-class-code check, then the addenda
field-inclusion check. -/
def BatchCTX.checkEntry (batch : Batch) (entry : EntryDetail) : Option ACHError :=
  if entry.Addenda05.length > 9999 then
    some (.addendaCount entry.Addenda05.length 9999)
  else
    let addendaRecords := goAtoi entry.CATXAddendaRecordsField
    if (entry.Addenda05.length : Int) ≠ addendaRecords then
      some (.expectedAddendaCount entry.Addenda05.length addendaRecords)
    else if tcodeForbidsAddenda entry.TransactionCode then
      some (.transactionCodeAddenda entry.TransactionCode)
    else
      match batch.ValidTranCodeForServiceClassCode entry with
      | some err => some err
      | none => batch.addendaFieldInclusion entry

/-- The entry loop of Validate: first failing entry wins, in list order. -/
def BatchCTX.validateEntries (batch : Batch) : List EntryDetail → Option ACHError
  | [] => none
  | entry :: rest =>
    match BatchCTX.checkEntry batch entry with
    | some err => some err
    | none => BatchCTX.validateEntries batch rest

/-- `BatchCTX.Validate`, translated from batchCTX.go: basic verification,
then the SEC-code check against CTX, then the per-entry checks in list
order. -/
def BatchCTX.Validate (batch : Batch) : Option ACHError :=
  match batch.verify with
  | some err => some err
  | none =>
    if batch.Header.StandardEntryClassCode ≠ CTX then
      some (.secType batch.Header.StandardEntryClassCode CTX)
    else
      BatchCTX.validateEntries batch batch.Entries

/-- `Validate` in state-passing form.  The Go method's body contains no
assignment to the receiver or its fields, so the faithful state-passing
translation returns the input batch unchanged alongside the result. -/
def BatchCTX.ValidateRun (batch : Batch) : Batch × Option ACHError :=
  (batch, BatchCTX.Validate batch)

/-! ## Build and Create -/

/-- Modelled from the spec: trace-number assignment by `build` (not in this
snapshot) gives each entry a positional sequence number, monotonically
increasing and unique within the batch, in list order. -/
def assignTraceNumbersFrom (n : Nat) : List EntryDetail → List EntryDetail
  | [] => []
  | entry :: rest =>
    { entry with TraceNumber := n } :: assignTraceNumbersFrom (n + 1) rest

def assignTraceNumbers (entries : List EntryDetail) : List EntryDetail :=
  assignTraceNumbersFrom 1 entries

/-- Modelled from the spec: the Control aggregate recomputed by `build`:
`entryAddendaCount = Σ(1 + addenda05_count(e))`,
`entryHash = (Σ routingNumber(e)) mod 10^10`,
`totalDebit = Σ amount(e) where transactionCode ∈ DebitCodes`, and
`totalCredit` analogously for credit codes. -/
def buildControl (entries : List EntryDetail) : BatchControl :=
  { EntryAddendaCount := (entries.map (fun e => 1 + e.Addenda05.length)).sum
    EntryHash := ((entries.map (fun e => e.RDFIIdentification)).sum) % 10 ^ 10
    TotalDebitEntryDollarAmount :=
      ((entries.filter (fun e => isDebitCode e.TransactionCode)).map
        (fun e => e.Amount)).sum
    TotalCreditEntryDollarAmount :=
      ((entries.filter (fun e => isCreditCode e.TransactionCode)).map
        (fun e => e.Amount)).sum }

/-- Modelled from the spec: `Batch.build` (called by Create, not in this
snapshot) runs the basic structural verification, assigns positional trace
numbers to each entry in list order, and recomputes the Control fields from
the current Entries; it does not itself call Validate (Create does). -/
def Batch.build (batch : Batch) : Batch × Option ACHError :=
  match batch.verify with
  | some err => (batch, some err)
  | none =>
    let entries := assignTraceNumbers batch.Entries
    ({ batch with Entries := entries, Control := buildControl entries }, none)

/-- `BatchCTX.Create`, translated from batchCTX.go: run build, return its
error if it fails, otherwise return the result of Validate on the built
batch.  State-passing: the batch produced by build stays in place either
way. -/
def BatchCTX.Create (batch : Batch) : Batch × Option ACHError :=
  match batch.build with
  | (b, some err) => (b, some err)
  | (b, none) => (b, BatchCTX.Validate b)

/-! ## Individual checks, named for the ordering analysis

These restate each check of Validate as a standalone function, so that the
fail-fast ordering of Validate can be expressed as an equation between
`BatchCTX.Validate` and an explicitly ordered first-error composition. -/

/-- First error wins: the composition operator of a fail-fast check
sequence. -/
def orFirst (a b : Option ACHError) : Option ACHError :=
  match a with
  | some err => some err
  | none => b

/-- The SEC-code check of Validate in isolation. -/
def secCheck (batch : Batch) : Option ACHError :=
  if batch.Header.StandardEntryClassCode ≠ CTX then
    some (.secType batch.Header.StandardEntryClassCode CTX)
  else
    none

/-- The Addenda05 capacity check of Validate in isolation. -/
def capacityCheck (entry : EntryDetail) : Option ACHError :=
  if entry.Addenda05.length > 9999 then
    some (.addendaCount entry.Addenda05.length 9999)
  else
    none

/-- The recorded addenda-count check of Validate in isolation. -/
def recordedCountCheck (entry : EntryDetail) : Option ACHError :=
  let addendaRecords := goAtoi entry.CATXAddendaRecordsField
  if (entry.Addenda05.length : Int) ≠ addendaRecords then
    some (.expectedAddendaCount entry.Addenda05.length addendaRecords)
  else
    none

/-- The forbidden transaction-code check of Validate in isolation. -/
def tcodeCheck (entry : EntryDetail) : Option ACHError :=
  if tcodeForbidsAddenda entry.TransactionCode then
    some (.transactionCodeAddenda entry.TransactionCode)
  else
    none

/-! ## Sample inputs used by concrete witnesses -/

/-- A well-formed CTX entry: one Addenda05 record, recorded count `0001`. -/
def sampleEntryOK : EntryDetail :=
  { TransactionCode := CheckingCredit, RDFIIdentification := 121042882,
    Amount := 10000, CATXAddendaRecords := "0001", Addenda05 := [{}] }

/-- A well-formed CTX batch. -/
def sampleBatchOK : Batch :=
  { Header := { StandardEntryClassCode := CTX }, Entries := [sampleEntryOK] }

/-- A CTX entry with a forbidden prenote transaction code. -/
def samplePrenoteEntry : EntryDetail :=
  { TransactionCode := CheckingPrenoteCredit, RDFIIdentification := 121042882,
    CATXAddendaRecords := "0000" }

/-- A CTX batch containing the prenote entry. -/
def samplePrenoteBatch : Batch :=
  { Header := { StandardEntryClassCode := CTX }, Entries := [samplePrenoteEntry] }

/-- A batch whose header declares the PPD SEC code. -/
def samplePPDBatch : Batch :=
  { Header := { StandardEntryClassCode := "PPD" } }

/-- A batch whose header declares the WEB SEC code. -/
def sampleWEBBatch : Batch :=
  { Header := { StandardEntryClassCode := "WEB" } }

/-- An entry with 10000 Addenda05 records, exceeding the field capacity. -/
def bigEntry : EntryDetail :=
  { TransactionCode := CheckingCredit, RDFIIdentification := 121042882,
    CATXAddendaRecords := "0000", Addenda05 := List.replicate 10000 {} }

/-- A CTX batch containing the oversized entry. -/
def bigBatch : Batch :=
  { Header := { StandardEntryClassCode := CTX }, Entries := [bigEntry] }

/-- An entry whose recorded addenda-count sub-field says 3 while no Addenda05
record is attached. -/
def mismatchEntry : EntryDetail :=
  { TransactionCode := CheckingCredit, RDFIIdentification := 121042882,
    CATXAddendaRecords := "0003" }

/-- A CTX batch containing the mismatched entry. -/
def mismatchBatch : Batch :=
  { Header := { StandardEntryClassCode := CTX }, Entries := [mismatchEntry] }

/-- An entry whose recorded addenda-count sub-field is not a parseable
decimal number. -/
def badFieldEntry : EntryDetail :=
  { TransactionCode := CheckingCredit, RDFIIdentification := 121042882,
    CATXAddendaRecords := "ABCD" }

/-- A batch with a single entry, for the N = 1 entry-hash instance. -/
def oneEntryBatch : Batch :=
  { Header := {},
    Entries := [{ TransactionCode := CheckingCredit, RDFIIdentification := 121042882 }] }

/-- An entry whose routing number is large enough that two of them exceed
10^10, for the entry-hash wraparound instance. -/
def hugeRoutingEntry : EntryDetail :=
  { TransactionCode := CheckingCredit, RDFIIdentification := 6000000000 }

/-- A batch whose routing-number sum exceeds 10^10. -/
def wrapBatch : Batch :=
  { Header := {}, Entries := [hugeRoutingEntry, hugeRoutingEntry] }

/-! ## Helper lemmas -/

theorem orFirst_assoc (a b c : Option ACHError) :
    orFirst (orFirst a b) c = orFirst a (orFirst b c) := by
  cases a <;> simp [orFirst]

theorem checkEntry_decompose (batch : Batch) (entry : EntryDetail) :
    BatchCTX.checkEntry batch entry =
      orFirst (capacityCheck entry) (orFirst (recordedCountCheck entry)
        (orFirst (tcodeCheck entry)
          (orFirst (batch.ValidTranCodeForServiceClassCode entry)
            (batch.addendaFieldInclusion entry)))) := by
  by_cases h1 : entry.Addenda05.length > 9999
  · simp [BatchCTX.checkEntry, capacityCheck, orFirst, h1]
  · by_cases h2 : (entry.Addenda05.length : Int) ≠ goAtoi entry.CATXAddendaRecordsField
    · simp [BatchCTX.checkEntry, capacityCheck, recordedCountCheck, orFirst, h1, h2]
    · by_cases h3 : tcodeForbidsAddenda entry.TransactionCode = true
      · simp [BatchCTX.checkEntry, capacityCheck, recordedCountCheck, tcodeCheck,
          orFirst, h1, h2, h3]
      · cases hs : batch.ValidTranCodeForServiceClassCode entry <;>
          simp [BatchCTX.checkEntry, capacityCheck, recordedCountCheck, tcodeCheck,
            orFirst, h1, h2, h3, hs]

theorem validateEntries_cons (batch : Batch) (entry : EntryDetail)
    (rest : List EntryDetail) :
    BatchCTX.validateEntries batch (entry :: rest) =
      orFirst (BatchCTX.checkEntry batch entry)
        (BatchCTX.validateEntries batch rest) := by
  cases h : BatchCTX.checkEntry batch entry <;>
    simp [BatchCTX.validateEntries, orFirst, h]

theorem validateEntries_append (batch : Batch) (pre rest : List EntryDetail)
    (hpre : ∀ x ∈ pre, BatchCTX.checkEntry batch x = none) :
    BatchCTX.validateEntries batch (pre ++ rest) =
      BatchCTX.validateEntries batch rest := by
  induction pre with
  | nil => simp
  | cons x xs ih =>
    have hx : BatchCTX.checkEntry batch x = none :=
      hpre x (List.mem_cons_self x xs)
    rw [List.cons_append, validateEntries_cons, hx]
    exact ih (fun y hy => hpre y (List.mem_cons_of_mem x hy))

theorem validate_eq_entries (batch : Batch)
    (hsec : batch.Header.StandardEntryClassCode = CTX) :
    BatchCTX.Validate batch = BatchCTX.validateEntries batch batch.Entries := by
  simp [BatchCTX.Validate, Batch.verify, hsec]

/-- If all entries before `entry` pass, Validate returns what the first
failing check of `entry` returns. -/
theorem validate_firstFail (batch : Batch) (pre post : List EntryDetail)
    (entry : EntryDetail) (err : ACHError)
    (hsec : batch.Header.StandardEntryClassCode = CTX)
    (hE : batch.Entries = pre ++ entry :: post)
    (hpre : ∀ x ∈ pre, BatchCTX.checkEntry batch x = none)
    (hfail : BatchCTX.checkEntry batch entry = some err) :
    BatchCTX.Validate batch = some err := by
  rw [validate_eq_entries batch hsec, hE, validateEntries_append batch pre _ hpre,
    validateEntries_cons, hfail]
  rfl

theorem scc_result (batch : Batch) (entry : EntryDetail) (err : ACHError)
    (h : batch.ValidTranCodeForServiceClassCode entry = some err) :
    ∃ c s, err = .tranCodeServiceClass c s := by
  unfold Batch.ValidTranCodeForServiceClassCode at h
  split at h
  · exact ⟨_, _, (Option.some.inj h).symm⟩
  · split at h
    · exact ⟨_, _, (Option.some.inj h).symm⟩
    · exact absurd h (by simp)

theorem incl_result (batch : Batch) (entry : EntryDetail) (err : ACHError)
    (h : batch.addendaFieldInclusion entry = some err) :
    ∃ f, err = .fieldInclusion f := by
  unfold Batch.addendaFieldInclusion at h
  repeat' split at h
  all_goals first
    | exact ⟨_, (Option.some.inj h).symm⟩
    | exact absurd h (by simp)

theorem capacityCheck_some (entry : EntryDetail) (err : ACHError)
    (h : capacityCheck entry = some err) :
    entry.Addenda05.length > 9999 ∧
      err = .addendaCount entry.Addenda05.length 9999 := by
  unfold capacityCheck at h
  split at h
  · exact ⟨by assumption, (Option.some.inj h).symm⟩
  · exact absurd h (by simp)

theorem recordedCountCheck_some (entry : EntryDetail) (err : ACHError)
    (h : recordedCountCheck entry = some err) :
    (entry.Addenda05.length : Int) ≠ goAtoi entry.CATXAddendaRecordsField ∧
      err = .expectedAddendaCount entry.Addenda05.length
        (goAtoi entry.CATXAddendaRecordsField) := by
  simp only [recordedCountCheck] at h
  split at h
  · exact ⟨by assumption, (Option.some.inj h).symm⟩
  · exact absurd h (by simp)

theorem tcodeCheck_some (entry : EntryDetail) (err : ACHError)
    (h : tcodeCheck entry = some err) :
    tcodeForbidsAddenda entry.TransactionCode = true ∧
      err = .transactionCodeAddenda entry.TransactionCode := by
  unfold tcodeCheck at h
  split at h
  · exact ⟨by assumption, (Option.some.inj h).symm⟩
  · exact absurd h (by simp)

/-- The possible shapes of a checkEntry failure, each tied to the condition
of the check that produced it. -/
theorem checkEntry_result (batch : Batch) (entry : EntryDetail) (err : ACHError)
    (h : BatchCTX.checkEntry batch entry = some err) :
    (entry.Addenda05.length > 9999 ∧
        err = .addendaCount entry.Addenda05.length 9999) ∨
    ((entry.Addenda05.length : Int) ≠ goAtoi entry.CATXAddendaRecordsField ∧
        err = .expectedAddendaCount entry.Addenda05.length
          (goAtoi entry.CATXAddendaRecordsField)) ∨
    (tcodeForbidsAddenda entry.TransactionCode = true ∧
        err = .transactionCodeAddenda entry.TransactionCode) ∨
    (∃ c s, err = .tranCodeServiceClass c s) ∨
    (∃ f, err = .fieldInclusion f) := by
  rw [checkEntry_decompose] at h
  cases hcap : capacityCheck entry with
  | some e =>
    rw [hcap] at h
    simp only [orFirst] at h
    exact Or.inl ((Option.some.inj h) ▸ capacityCheck_some entry e hcap)
  | none =>
    rw [hcap] at h
    simp only [orFirst] at h
    cases hrec : recordedCountCheck entry with
    | some e =>
      rw [hrec] at h
      simp only [orFirst] at h
      exact Or.inr (Or.inl ((Option.some.inj h) ▸ recordedCountCheck_some entry e hrec))
    | none =>
      rw [hrec] at h
      simp only [orFirst] at h
      cases htc : tcodeCheck entry with
      | some e =>
        rw [htc] at h
        simp only [orFirst] at h
        exact Or.inr (Or.inr (Or.inl ((Option.some.inj h) ▸ tcodeCheck_some entry e htc)))
      | none =>
        rw [htc] at h
        simp only [orFirst] at h
        cases hscc : batch.ValidTranCodeForServiceClassCode entry with
        | some e =>
          rw [hscc] at h
          simp only [orFirst] at h
          exact Or.inr (Or.inr (Or.inr (Or.inl
            (scc_result batch entry err ((Option.some.inj h) ▸ hscc)))))
        | none =>
          rw [hscc] at h
          simp only [orFirst] at h
          exact Or.inr (Or.inr (Or.inr (Or.inr (incl_result batch entry err h))))

/-- A failing entry loop pins the failure on some entry of the list. -/
theorem validateEntries_some (batch : Batch) (es : List EntryDetail)
    (err : ACHError) (h : BatchCTX.validateEntries batch es = some err) :
    ∃ e ∈ es, BatchCTX.checkEntry batch e = some err := by
  induction es with
  | nil => simp [BatchCTX.validateEntries] at h
  | cons x xs ih =>
    rw [validateEntries_cons] at h
    cases hx : BatchCTX.checkEntry batch x with
    | some e2 =>
      rw [hx] at h
      simp only [orFirst] at h
      exact ⟨x, by simp, by rw [hx, h]⟩
    | none =>
      rw [hx] at h
      simp only [orFirst] at h
      obtain ⟨e, he, hce⟩ := ih h
      exact ⟨e, by simp [he], hce⟩

/-- The batch produced by build: trace numbers assigned and the Control
recomputed from the entries (basic verification cannot fail in this
embedding). -/
theorem build_fst (batch : Batch) :
    (batch.build).1 =
      { batch with
        Entries := assignTraceNumbers batch.Entries
        Control := buildControl (assignTraceNumbers batch.Entries) } :=
  rfl

/-- Trace-number assignment leaves the routing numbers of the entries, in
order, unchanged. -/
theorem assignTraceNumbersFrom_map_routing (n : Nat) (es : List EntryDetail) :
    (assignTraceNumbersFrom n es).map (fun e => e.RDFIIdentification) =
      es.map (fun e => e.RDFIIdentification) := by
  induction es generalizing n with
  | nil => rfl
  | cons x xs ih => simp [assignTraceNumbersFrom, ih]

/-! ## The claims -/

/-- Claim C1: Create succeeds if and only if the internal build step and the
subsequent Validate call both succeed; otherwise Create returns the first
error — the build step's error if build fails, else Validate's error. -/
theorem claim_C1_create_iff (batch : Batch) :
    ((BatchCTX.Create batch).2 = none ↔
      ((batch.build).2 = none ∧ BatchCTX.Validate (batch.build).1 = none))
  ∧ (∀ err, (batch.build).2 = some err → (BatchCTX.Create batch).2 = some err)
  ∧ ((batch.build).2 = none →
      (BatchCTX.Create batch).2 = BatchCTX.Validate (batch.build).1) := by
  rcases hb : batch.build with ⟨b, e⟩
  cases e with
  | none => simp [BatchCTX.Create, hb]
  | some err2 => simp [BatchCTX.Create, hb]

/-- Witness for C1: on a well-formed CTX batch the build step and Validate
both succeed, and Create indeed returns success. -/
theorem claim_C1_witness :
    ((sampleBatchOK.build).2 = none ∧
      BatchCTX.Validate (sampleBatchOK.build).1 = none) ∧
    (BatchCTX.Create sampleBatchOK).2 = none :=
  ⟨⟨rfl, by decide⟩,
    (claim_C1_create_iff sampleBatchOK).1.mpr ⟨rfl, by decide⟩⟩

/-- Claim C2: in a CTX batch, an entry bearing one of the
prenote/zero-dollar-notification transaction codes makes Validate fail with a
TransactionCodeError naming that code, provided the checks before it pass;
an entry whose transaction code is not one of those codes never trips this
check. -/
theorem claim_C2_prenote_rejected (batch : Batch) (pre post : List EntryDetail)
    (entry : EntryDetail)
    (hsec : batch.Header.StandardEntryClassCode = CTX)
    (hE : batch.Entries = pre ++ entry :: post)
    (hpre : ∀ x ∈ pre, BatchCTX.checkEntry batch x = none)
    (hcap : entry.Addenda05.length ≤ 9999)
    (hrec : (entry.Addenda05.length : Int) = goAtoi entry.CATXAddendaRecordsField) :
    (tcodeForbidsAddenda entry.TransactionCode = true →
      BatchCTX.Validate batch =
        some (.transactionCodeAddenda entry.TransactionCode))
  ∧ (tcodeForbidsAddenda entry.TransactionCode = false →
      ∀ c, BatchCTX.checkEntry batch entry ≠ some (.transactionCodeAddenda c)) := by
  have hnotbig : ¬ entry.Addenda05.length > 9999 := by omega
  constructor
  · intro ht
    apply validate_firstFail batch pre post entry _ hsec hE hpre
    simp [BatchCTX.checkEntry, hnotbig, hrec, ht]
  · intro hf c hcontra
    rcases checkEntry_result batch entry _ hcontra with
      ⟨hc, he⟩ | ⟨hc, he⟩ | ⟨hc, he⟩ | ⟨c2, s2, he⟩ | ⟨f2, he⟩ <;> simp_all

/-- Witness for C2: the sample CTX batch holding a CheckingPrenoteCredit
entry fails Validate with the TransactionCodeError naming code 23. -/
theorem claim_C2_witness :
    (samplePrenoteBatch.Header.StandardEntryClassCode = CTX ∧
      tcodeForbidsAddenda samplePrenoteEntry.TransactionCode = true) ∧
    BatchCTX.Validate samplePrenoteBatch =
      some (.transactionCodeAddenda CheckingPrenoteCredit) :=
  ⟨⟨rfl, by decide⟩,
    (claim_C2_prenote_rejected samplePrenoteBatch [] [] samplePrenoteEntry
      rfl rfl (by simp) (by decide) (by decide)).1 (by decide)⟩

/-- Claim C3: an entry whose Addenda05 list exceeds 9999 records makes
Validate fail with an AddendaCountError carrying the actual count and the
limit 9999 (once the checks before it pass); an entry with exactly 9999
Addenda05 records passes the capacity check, which never reports on it. -/
theorem claim_C3_capacity (batch : Batch) (pre post : List EntryDetail)
    (entry : EntryDetail)
    (hsec : batch.Header.StandardEntryClassCode = CTX)
    (hE : batch.Entries = pre ++ entry :: post)
    (hpre : ∀ x ∈ pre, BatchCTX.checkEntry batch x = none) :
    (entry.Addenda05.length > 9999 →
        BatchCTX.Validate batch =
          some (.addendaCount entry.Addenda05.length 9999))
  ∧ (entry.Addenda05.length = 9999 →
        capacityCheck entry = none ∧
        ∀ a l, BatchCTX.checkEntry batch entry ≠ some (.addendaCount a l)) := by
  constructor
  · intro hbig
    apply validate_firstFail batch pre post entry _ hsec hE hpre
    simp [BatchCTX.checkEntry, hbig]
  · intro h9999
    refine ⟨by simp [capacityCheck, h9999], ?_⟩
    intro a l hcontra
    rcases checkEntry_result batch entry _ hcontra with
      ⟨hc, he⟩ | ⟨hc, he⟩ | ⟨hc, he⟩ | ⟨c2, s2, he⟩ | ⟨f2, he⟩ <;>
      first
      | exact absurd hc (by omega)
      | simp_all

/-- Witness for C3: an entry with 10000 Addenda05 records makes the sample
batch fail with the AddendaCountError carrying the count and the 9999
limit. -/
theorem claim_C3_witness :
    bigEntry.Addenda05.length > 9999 ∧
    BatchCTX.Validate bigBatch =
      some (.addendaCount bigEntry.Addenda05.length 9999) := by
  have hbig : bigEntry.Addenda05.length > 9999 := by
    have h : bigEntry.Addenda05 = List.replicate 10000 {} := rfl
    rw [h, List.length_replicate]
    omega
  exact ⟨hbig,
    (claim_C3_capacity bigBatch [] [] bigEntry rfl rfl (by simp)).1 hbig⟩

/-- Claim C4: once the capacity check passes, Validate fails with an
AddendaCountError reporting expected versus actual counts exactly when the
recorded addenda-count sub-field (as read through Atoi) differs from the
actual Addenda05 list length; when the two agree the check does not fire. -/
theorem claim_C4_recorded_count (batch : Batch) (pre post : List EntryDetail)
    (entry : EntryDetail)
    (hsec : batch.Header.StandardEntryClassCode = CTX)
    (hE : batch.Entries = pre ++ entry :: post)
    (hpre : ∀ x ∈ pre, BatchCTX.checkEntry batch x = none)
    (hcap : entry.Addenda05.length ≤ 9999) :
    ((entry.Addenda05.length : Int) ≠ goAtoi entry.CATXAddendaRecordsField →
        BatchCTX.Validate batch =
          some (.expectedAddendaCount entry.Addenda05.length
            (goAtoi entry.CATXAddendaRecordsField)))
  ∧ ((entry.Addenda05.length : Int) = goAtoi entry.CATXAddendaRecordsField →
        recordedCountCheck entry = none ∧
        ∀ a r, BatchCTX.checkEntry batch entry ≠
          some (.expectedAddendaCount a r)) := by
  have hnotbig : ¬ entry.Addenda05.length > 9999 := by omega
  constructor
  · intro hne
    apply validate_firstFail batch pre post entry _ hsec hE hpre
    simp [BatchCTX.checkEntry, hnotbig, hne]
  · intro heq
    refine ⟨by simp [recordedCountCheck, heq], ?_⟩
    intro a r hcontra
    rcases checkEntry_result batch entry _ hcontra with
      ⟨hc, he⟩ | ⟨hc, he⟩ | ⟨hc, he⟩ | ⟨c2, s2, he⟩ | ⟨f2, he⟩ <;> simp_all

/-- Witness for C4: the sample entry records 3 addenda while carrying none,
so Validate fails with the expected-versus-actual AddendaCountError. -/
theorem claim_C4_witness :
    (mismatchEntry.Addenda05.length : Int) ≠
        goAtoi mismatchEntry.CATXAddendaRecordsField ∧
    BatchCTX.Validate mismatchBatch = some (.expectedAddendaCount 0 3) :=
  ⟨by decide,
    (claim_C4_recorded_count mismatchBatch [] [] mismatchEntry
      rfl rfl (by simp) (by decide)).1 (by decide)⟩

/-- Claim C5: a batch whose header declares a Standard Entry Class code other
than CTX fails Validate with the SEC-mismatch error rather than any default;
a header declaring CTX passes this check, and Validate never produces a
SEC-mismatch error for it. -/
theorem claim_C5_sec_mismatch (batch : Batch) :
    (batch.Header.StandardEntryClassCode ≠ CTX →
        BatchCTX.Validate batch =
          some (.secType batch.Header.StandardEntryClassCode CTX))
  ∧ (batch.Header.StandardEntryClassCode = CTX →
        secCheck batch = none ∧
        ∀ s t, BatchCTX.Validate batch ≠ some (.secType s t)) := by
  constructor
  · intro hne
    simp [BatchCTX.Validate, Batch.verify, hne]
  · intro hsec
    refine ⟨by simp [secCheck, hsec], ?_⟩
    intro s t hcontra
    rw [validate_eq_entries batch hsec] at hcontra
    obtain ⟨e, he, hce⟩ := validateEntries_some batch _ _ hcontra
    rcases checkEntry_result batch e _ hce with
      ⟨hc, hx⟩ | ⟨hc, hx⟩ | ⟨hc, hx⟩ | ⟨c2, s2, hx⟩ | ⟨f2, hx⟩ <;> simp_all

/-- Witness for C5: a batch declaring PPD fails Validate with the
SEC-mismatch error naming PPD and CTX. -/
theorem claim_C5_witness :
    samplePPDBatch.Header.StandardEntryClassCode ≠ CTX ∧
    BatchCTX.Validate samplePPDBatch = some (.secType "PPD" "CTX") :=
  ⟨by decide, (claim_C5_sec_mismatch samplePPDBatch).1 (by decide)⟩

/-- Claim C6: Validate is fail-fast in a fixed order — it equals the
first-error composition of the basic verification, then the SEC-code check,
then for each entry in list order the capacity check, the recorded-count
check, the forbidden-transaction-code check, the service-class-code check and
the field-inclusion check; the first failure is returned and no later check
contributes. -/
theorem claim_C6_fail_fast_order (batch : Batch) :
    BatchCTX.Validate batch =
      orFirst batch.verify (orFirst (secCheck batch)
        (batch.Entries.foldr
          (fun entry acc =>
            orFirst (capacityCheck entry) (orFirst (recordedCountCheck entry)
              (orFirst (tcodeCheck entry)
                (orFirst (batch.ValidTranCodeForServiceClassCode entry)
                  (orFirst (batch.addendaFieldInclusion entry) acc)))))
          none)) := by
  have hfold : ∀ es : List EntryDetail, BatchCTX.validateEntries batch es =
      es.foldr (fun entry acc => orFirst (BatchCTX.checkEntry batch entry) acc)
        none := by
    intro es
    induction es with
    | nil => rfl
    | cons x xs ih => rw [validateEntries_cons, ih]; rfl
  have hbody :
      (fun (entry : EntryDetail) (acc : Option ACHError) =>
        orFirst (BatchCTX.checkEntry batch entry) acc) =
      (fun entry acc =>
        orFirst (capacityCheck entry) (orFirst (recordedCountCheck entry)
          (orFirst (tcodeCheck entry)
            (orFirst (batch.ValidTranCodeForServiceClassCode entry)
              (orFirst (batch.addendaFieldInclusion entry) acc))))) := by
    funext entry acc
    rw [checkEntry_decompose]
    simp only [orFirst_assoc]
  have hv : BatchCTX.Validate batch =
      orFirst batch.verify (orFirst (secCheck batch)
        (BatchCTX.validateEntries batch batch.Entries)) := by
    by_cases hsec : batch.Header.StandardEntryClassCode = CTX
    · simp [BatchCTX.Validate, Batch.verify, secCheck, orFirst, hsec]
    · simp [BatchCTX.Validate, Batch.verify, secCheck, orFirst, hsec]
  rw [hv, hfold, hbody]

/-- Claim C7: Validate never mutates the batch — in state-passing form it
returns the Header, Control and Entries unchanged — and running it again on
the batch it returns yields the same result. -/
theorem claim_C7_validate_pure (batch : Batch) :
    (BatchCTX.ValidateRun batch).1.Header = batch.Header
  ∧ (BatchCTX.ValidateRun batch).1.Control = batch.Control
  ∧ (BatchCTX.ValidateRun batch).1.Entries = batch.Entries
  ∧ BatchCTX.ValidateRun ((BatchCTX.ValidateRun batch).1) =
      BatchCTX.ValidateRun batch :=
  ⟨rfl, rfl, rfl, rfl⟩

/-- Claim C8: when the build step succeeds but the trailing Validate call
fails, Create returns the validation error while the Control computed by the
build step remains in place on the returned batch. -/
theorem claim_C8_control_remains (batch : Batch) (err : ACHError)
    (hbuild : (batch.build).2 = none)
    (hval : BatchCTX.Validate (batch.build).1 = some err) :
    BatchCTX.Create batch = ((batch.build).1, some err)
  ∧ (BatchCTX.Create batch).1.Control =
      buildControl (assignTraceNumbers batch.Entries) := by
  rcases hb : batch.build with ⟨b, e⟩
  rw [hb] at hbuild hval
  cases e with
  | some e2 => simp at hbuild
  | none =>
    have hvb : BatchCTX.Validate b = some err := hval
    have hfst : b = { batch with
        Entries := assignTraceNumbers batch.Entries
        Control := buildControl (assignTraceNumbers batch.Entries) } := by
      have h := build_fst batch
      rw [hb] at h
      exact h
    have h1 : BatchCTX.Create batch = (b, some err) := by
      simp [BatchCTX.Create, hb, hvb]
    refine ⟨by rw [h1], ?_⟩
    rw [h1]
    show b.Control = _
    rw [hfst]

/-- Witness for C8: a batch declaring WEB builds fine, fails the trailing
Validate with the SEC-mismatch error, and Create leaves the built batch (its
Control included) in place alongside that error. -/
theorem claim_C8_witness :
    ((sampleWEBBatch.build).2 = none ∧
      BatchCTX.Validate (sampleWEBBatch.build).1 =
        some (.secType "WEB" "CTX")) ∧
    BatchCTX.Create sampleWEBBatch =
      ((sampleWEBBatch.build).1, some (.secType "WEB" "CTX")) :=
  ⟨⟨rfl, by decide⟩,
    (claim_C8_control_remains sampleWEBBatch _ rfl (by decide)).1⟩

/-- Claim C9: after build, the Control's entry hash is the sum of the
entries' routing numbers reduced modulo 10^10; in particular it is 0 for an
empty batch, the routing number itself for one entry, and it wraps around
once the sum exceeds 10^10. -/
theorem claim_C9_entry_hash (batch : Batch) :
    ((batch.build).1).Control.EntryHash =
      ((batch.Entries.map fun e => e.RDFIIdentification).sum) % 10 ^ 10
  ∧ ((NewBatchCTX {}).build).1.Control.EntryHash = 0
  ∧ (oneEntryBatch.build).1.Control.EntryHash = 121042882
  ∧ (wrapBatch.build).1.Control.EntryHash = 2000000000 := by
  refine ⟨?_, by decide, by decide, by decide⟩
  rw [build_fst]
  show (buildControl (assignTraceNumbers batch.Entries)).EntryHash = _
  show ((assignTraceNumbers batch.Entries).map
    fun e => e.RDFIIdentification).sum % 10 ^ 10 = _
  rw [assignTraceNumbers, assignTraceNumbersFrom_map_routing]

/-- Claim C10: Validate discards the Atoi parse error on the recorded
addenda-count sub-field — a non-parseable sub-field reads as 0, so such an
entry passes the count-equality check exactly when its Addenda05 list is
empty, and fails it with a recorded count of 0 otherwise. -/
theorem claim_C10_atoi_error_discarded (batch : Batch) (entry : EntryDetail)
    (hbad : goParseInt entry.CATXAddendaRecordsField = none) :
    goAtoi entry.CATXAddendaRecordsField = 0
  ∧ (recordedCountCheck entry = none ↔ entry.Addenda05 = [])
  ∧ (entry.Addenda05 ≠ [] → entry.Addenda05.length ≤ 9999 →
      BatchCTX.checkEntry batch entry =
        some (.expectedAddendaCount entry.Addenda05.length 0)) := by
  have h0 : goAtoi entry.CATXAddendaRecordsField = 0 := by
    simp [goAtoi, hbad]
  refine ⟨h0, ?_, ?_⟩
  · constructor
    · intro h
      simp only [recordedCountCheck, h0] at h
      split at h
      · exact absurd h (by simp)
      · rename_i hc
        push_neg at hc
        have hl : entry.Addenda05.length = 0 := by exact_mod_cast hc
        exact List.length_eq_zero.mp hl
    · intro h
      simp [recordedCountCheck, h0, h]
  · intro hne hcap
    have hlen0 : entry.Addenda05.length ≠ 0 := by
      simpa [List.length_eq_zero] using hne
    have hnotbig : ¬ entry.Addenda05.length > 9999 := by omega
    have hni : (entry.Addenda05.length : Int) ≠ 0 := by exact_mod_cast hlen0
    simp [BatchCTX.checkEntry, hnotbig, h0, hni]

/-- Witness for C10: an entry whose sub-field reads `ABCD` is not parseable,
and with an empty Addenda05 list it passes the count-equality check. -/
theorem claim_C10_witness :
    goParseInt badFieldEntry.CATXAddendaRecordsField = none ∧
    recordedCountCheck badFieldEntry = none :=
  ⟨by decide,
    (claim_C10_atoi_error_discarded (NewBatchCTX {}) badFieldEntry
      (by decide)).2.1.mpr rfl⟩

end ACH
